import Mathlib

/-!
Verification development for the exploration state engine of the
Deriv-Hackathon autonomous crawler.

The Python core (`src/core/element_discovery.py`, `src/core/site_mapper.py`,
`src/core/navigation_engine.py`, `src/core/brute_force_engine.py`) is shallowly
embedded below: pure helpers become Lean functions, stateful methods become
explicit state-passing functions, Python `float` arithmetic on exact inputs is
modelled over `ℚ`, Python `datetime` values are modelled as `Nat` microsecond
timestamps, and external effects (browser, vision model, clock, disk) become
explicit parameters of the embedded operations.
-/

namespace ElementDiscovery

/-- `InteractiveElement` from `element_discovery.py`: an interactive region
discovered on a screen.  `bounding_box` is `[ymin, xmin, ymax, xmax]` on a
0–1000 scale, `center` the derived pixel coordinates. -/
structure InteractiveElement where
  label : String
  element_type : String
  bounding_box : List Int
  priority : String
  center : Int × Int
  tested : Bool
deriving DecidableEq, Repr

/-- Body of `ElementDiscovery._calculate_iou` after the two boxes have been
destructured into `[ymin, xmin, ymax, xmax]` components.  Python float
division on integer inputs is modelled in `ℚ`. -/
def iouCore (y1_min x1_min y1_max x1_max y2_min x2_min y2_max x2_max : ℤ) : ℚ :=
  let x_left := max x1_min x2_min
  let y_top := max y1_min y2_min
  let x_right := min x1_max x2_max
  let y_bottom := min y1_max y2_max
  if x_right < x_left ∨ y_bottom < y_top then 0
  else
    let intersection : ℚ := ((x_right - x_left) * (y_bottom - y_top) : ℤ)
    let area1 : ℚ := ((x1_max - x1_min) * (y1_max - y1_min) : ℤ)
    let area2 : ℚ := ((x2_max - x2_min) * (y2_max - y2_min) : ℤ)
    let union := area1 + area2 - intersection
    if union = 0 then 0 else intersection / union

/-- `ElementDiscovery._calculate_iou`: intersection-over-union of two bounding
boxes, exactly as the source computes it (lists that are not 4 elements long
yield `0.0`; a strict-separation guard returns `0.0`; a zero union returns
`0.0`). -/
def calculate_iou (box1 box2 : List Int) : ℚ :=
  match box1, box2 with
  | [y1_min, x1_min, y1_max, x1_max], [y2_min, x2_min, y2_max, x2_max] =>
    iouCore y1_min x1_min y1_max x1_max y2_min x2_min y2_max x2_max
  | _, _ => 0

/-- `ElementDiscovery.deduplicate_elements`: keep each new element unless some
existing element overlaps it with IoU at or above the threshold. -/
def deduplicate_elements (elements existing : List InteractiveElement)
    (threshold : ℚ) : List InteractiveElement :=
  elements.filter (fun new_elem =>
    !(existing.any (fun old_elem =>
      decide (threshold ≤ calculate_iou new_elem.bounding_box old_elem.bounding_box))))

/-- The signed area `(xmax - xmin) * (ymax - ymin)` of a `[ymin,xmin,ymax,xmax]`
box, as the source computes it. -/
def boxArea : List Int → ℤ
  | [ymin, xmin, ymax, xmax] => (xmax - xmin) * (ymax - ymin)
  | _ => 0

end ElementDiscovery

namespace SiteMapper

open ElementDiscovery

/-- `Screen` from `site_mapper.py`.  `tested_elements` is a Python `set` of
labels: it is modelled as a list carrying the set's members, with `set.add`
modelled by `List.insert` (which adds only absent members), `len` by `length`,
and iteration (`list(s)`) by the list itself; `discovered_at` is a `datetime`,
modelled as a microsecond timestamp. -/
structure Screen where
  fingerprint : String
  url : String
  screenshot_path : String
  elements : List InteractiveElement
  tested_elements : List String
  discovered_at : Nat
  has_issues : Bool
deriving DecidableEq

/-- `Screen.get_untested_elements`: elements whose label has not been tested. -/
def Screen.get_untested_elements (s : Screen) : List InteractiveElement :=
  s.elements.filter (fun e => decide (e.label ∉ s.tested_elements))

/-- `Screen.mark_element_tested`. -/
def Screen.mark_element_tested (s : Screen) (element_label : String) : Screen :=
  { s with tested_elements := s.tested_elements.insert element_label }

/-- `Screen.get_coverage`. -/
def Screen.get_coverage (s : Screen) : ℚ :=
  if s.elements = [] then 1
  else (s.tested_elements.length : ℚ) / (s.elements.length : ℚ)

/-- `Transition` from `site_mapper.py`. -/
structure Transition where
  from_screen : String
  element_label : String
  to_screen : String
  result : String
  timestamp : Nat
deriving DecidableEq

/-- The in-memory state of a `SiteMap`.  Python's insertion-ordered
`dict[str, Screen]` is modelled as an ordered association list. -/
structure SiteMap where
  screens : List (String × Screen)
  transitions : List Transition
  exploration_queue : List String
deriving DecidableEq

/-- Association-list lookup with the semantics of a Python `dict` access
(`fingerprint in self.screens` / `self.screens.get(fingerprint)`). -/
def lookupScreen (screens : List (String × Screen)) (fp : String) : Option Screen :=
  match screens with
  | [] => none
  | (k, s) :: rest => if k = fp then some s else lookupScreen rest fp

/-- `SiteMap.add_screen`.  `datetime.now()` for `discovered_at` is the explicit
`now` parameter.  New keys are appended at the end, matching Python dict
insertion order. -/
def SiteMap.add_screen (m : SiteMap) (now : Nat) (fingerprint screenshot_path url : String)
    (elements : List InteractiveElement) : Screen × SiteMap :=
  match lookupScreen m.screens fingerprint with
  | some screen => (screen, m)
  | none =>
    let screen : Screen :=
      { fingerprint := fingerprint, url := url, screenshot_path := screenshot_path,
        elements := elements, tested_elements := [], discovered_at := now,
        has_issues := false }
    (screen,
      { m with
        screens := m.screens ++ [(fingerprint, screen)]
        exploration_queue := m.exploration_queue ++ [fingerprint] })

/-- Mark `element_label` tested on the screen stored under key `fp` (the dict
update performed by `SiteMap.add_transition` when the source screen is known). -/
def markTested (screens : List (String × Screen)) (fp element_label : String) :
    List (String × Screen) :=
  match screens with
  | [] => []
  | (k, s) :: rest =>
    if k = fp then (k, s.mark_element_tested element_label) :: rest
    else (k, s) :: markTested rest fp element_label

/-- `SiteMap.add_transition`: always appends the transition; marks the element
tested on the source screen when that screen is known. -/
def SiteMap.add_transition (m : SiteMap) (now : Nat)
    (from_fingerprint element_label to_fingerprint result : String) :
    Transition × SiteMap :=
  let transition : Transition :=
    { from_screen := from_fingerprint, element_label := element_label,
      to_screen := to_fingerprint, result := result, timestamp := now }
  (transition,
    { m with
      transitions := m.transitions ++ [transition]
      screens := markTested m.screens from_fingerprint element_label })

/-- `SiteMap.get_screen`. -/
def SiteMap.get_screen (m : SiteMap) (fingerprint : String) : Option Screen :=
  lookupScreen m.screens fingerprint

/-- Untested elements of the screen stored under `fingerprint`, `[]` when the
screen is unknown (the body of `SiteMap.get_untested_elements`, parameterised
by the screen table). -/
def untestedUnder (screens : List (String × Screen)) (fingerprint : String) :
    List InteractiveElement :=
  match lookupScreen screens fingerprint with
  | none => []
  | some screen => screen.get_untested_elements

/-- `SiteMap.get_untested_elements`: `[]` when the screen is unknown. -/
def SiteMap.get_untested_elements (m : SiteMap) (fingerprint : String) :
    List InteractiveElement :=
  untestedUnder m.screens fingerprint

/-- The `while self.exploration_queue:` loop of
`SiteMap.get_next_screen_to_explore`: pop heads that are unknown or fully
tested; stop at the first head with untested elements, leaving it enqueued
(the source's `fingerprint in self.screens` guard plus non-empty
`get_untested_elements` check is exactly `untestedUnder screens fp ≠ []`). -/
def dequeueUntil (screens : List (String × Screen)) :
    List String → Option String × List String
  | [] => (none, [])
  | fingerprint :: rest =>
    if untestedUnder screens fingerprint ≠ [] then (some fingerprint, fingerprint :: rest)
    else dequeueUntil screens rest

/-- `SiteMap.is_screen_known`. -/
def SiteMap.is_screen_known (m : SiteMap) (fingerprint : String) : Bool :=
  (lookupScreen m.screens fingerprint).isSome

/-- `SiteMap.get_next_screen_to_explore`, returned together with the mutated
exploration queue (the Python method pops exhausted heads in place).  When the
queue is exhausted it falls back to a scan of all screens in insertion order. -/
def SiteMap.get_next_screen_to_explore (m : SiteMap) : Option String × SiteMap :=
  match dequeueUntil m.screens m.exploration_queue with
  | (some fingerprint, queue) =>
    (some fingerprint, { m with exploration_queue := queue })
  | (none, _) =>
    ((m.screens.find? (fun p => !(p.2.get_untested_elements.isEmpty))).map (fun p => p.1),
      { m with exploration_queue := [] })

/-- Python 3 `round` to an integer: round half to even. -/
def roundHalfEven (q : ℚ) : ℤ :=
  let f := ⌊q⌋
  let r := q - (f : ℚ)
  if r < 1 / 2 then f
  else if 1 / 2 < r then f + 1
  else if f % 2 = 0 then f else f + 1

/-- Python `round(q, 1)`. -/
def pythonRound1 (q : ℚ) : ℚ := (roundHalfEven (10 * q) : ℚ) / 10

/-- The dictionary returned by `SiteMap.get_coverage_stats`. -/
structure CoverageStats where
  screens_discovered : Nat
  total_elements : Nat
  tested_elements : Nat
  coverage_percent : ℚ
  transitions_recorded : Nat
  screens_with_issues : Nat
  screens_fully_tested : Nat
deriving DecidableEq

/-- `SiteMap.get_coverage_stats`. -/
def SiteMap.get_coverage_stats (m : SiteMap) : CoverageStats :=
  let total_elements : ℕ := (m.screens.map (fun p => p.2.elements.length)).sum
  let tested_elements : ℕ := (m.screens.map (fun p => p.2.tested_elements.length)).sum
  let screens_with_issues := (m.screens.filter (fun p => p.2.has_issues)).length
  let coverage_pct : ℚ :=
    if 0 < total_elements then (tested_elements : ℚ) / (total_elements : ℚ) * 100 else 0
  { screens_discovered := m.screens.length
    total_elements := total_elements
    tested_elements := tested_elements
    coverage_percent := pythonRound1 coverage_pct
    transitions_recorded := m.transitions.length
    screens_with_issues := screens_with_issues
    screens_fully_tested :=
      (m.screens.filter (fun p =>
        decide (p.2.tested_elements.length = p.2.elements.length) &&
        decide (0 < p.2.elements.length))).length }

/-- Set `has_issues` on the screen stored under key `fp` (the dict update done
by `SiteMap.mark_screen_has_issues` when the screen is known). -/
def setIssues (screens : List (String × Screen)) (fp : String) :
    List (String × Screen) :=
  match screens with
  | [] => []
  | (k, s) :: rest =>
    if k = fp then (k, { s with has_issues := true }) :: rest
    else (k, s) :: setIssues rest fp

/-- `SiteMap.mark_screen_has_issues`. -/
def SiteMap.mark_screen_has_issues (m : SiteMap) (fingerprint : String) : SiteMap :=
  { m with screens := setIssues m.screens fingerprint }

/-! ### Persistence

`SiteMap.save_to_disk` serialises the map through `to_dict` methods and
`json.dump`; `load_from_disk` reads it back through `json.load` and
`from_dict`.  The JSON layer (`json.dump`/`json.load`) round-trips Python
strings, ints, bools, lists and dicts exactly, so it is modelled as the
identity on mirror `…Data` records holding exactly the keys each `to_dict`
emits (every key is always written, so the `data.get(…, default)` fallbacks of
the `from_dict` readers never fire on saved data).  `datetime.isoformat` /
`datetime.fromisoformat` round-trip a timestamp exactly (full microsecond
precision); they are modelled as an injective decimal rendering of the `Nat`
timestamp and its exact parser. -/

/-- The dictionary produced by `InteractiveElement.to_dict` (the `center`
tuple is serialised as a two-element list). -/
structure InteractiveElementData where
  label : String
  element_type : String
  bounding_box : List Int
  priority : String
  center : List Int
  tested : Bool
deriving DecidableEq

/-- `InteractiveElement.to_dict`. -/
def elementToDict (e : InteractiveElement) : InteractiveElementData :=
  { label := e.label, element_type := e.element_type,
    bounding_box := e.bounding_box, priority := e.priority,
    center := [e.center.1, e.center.2], tested := e.tested }

/-- Python `tuple(...)` applied to the serialised two-element `center` list. -/
def tupleOfList : List Int → Int × Int
  | [a, b] => (a, b)
  | _ => (0, 0)

/-- `InteractiveElement.from_dict`. -/
def elementFromDict (d : InteractiveElementData) : InteractiveElement :=
  { label := d.label, element_type := d.element_type,
    bounding_box := d.bounding_box, priority := d.priority,
    center := tupleOfList d.center, tested := d.tested }

/-- `datetime.isoformat`, modelled as the decimal rendering of the
microsecond timestamp (an injective, exactly parseable encoding, which is all
the persistence layer relies on). -/
def isoformat (t : Nat) : String :=
  String.mk ((Nat.digits 10 t).reverse.map Nat.digitChar)

/-- Numeric value of a decimal digit character. -/
def charToDigit (c : Char) : Nat := c.toNat - 48

/-- `datetime.fromisoformat`, the exact parser for `isoformat`. -/
def fromisoformat (s : String) : Nat :=
  Nat.ofDigits 10 ((s.data.map charToDigit).reverse)

/-- The dictionary produced by `Screen.to_dict`. -/
structure ScreenData where
  fingerprint : String
  url : String
  screenshot_path : String
  elements : List InteractiveElementData
  tested_elements : List String
  discovered_at : String
  has_issues : Bool
deriving DecidableEq

/-- `Screen.to_dict`. -/
def Screen.to_dict (s : Screen) : ScreenData :=
  { fingerprint := s.fingerprint, url := s.url,
    screenshot_path := s.screenshot_path,
    elements := s.elements.map elementToDict,
    tested_elements := s.tested_elements,
    discovered_at := isoformat s.discovered_at,
    has_issues := s.has_issues }

/-- `Screen.from_dict`. -/
def Screen.from_dict (d : ScreenData) : Screen :=
  { fingerprint := d.fingerprint, url := d.url,
    screenshot_path := d.screenshot_path,
    elements := d.elements.map elementFromDict,
    tested_elements := d.tested_elements,
    discovered_at := fromisoformat d.discovered_at,
    has_issues := d.has_issues }

/-- The dictionary produced by `Transition.to_dict`. -/
structure TransitionData where
  from_screen : String
  element_label : String
  to_screen : String
  result : String
  timestamp : String
deriving DecidableEq

/-- `Transition.to_dict`. -/
def Transition.to_dict (t : Transition) : TransitionData :=
  { from_screen := t.from_screen, element_label := t.element_label,
    to_screen := t.to_screen, result := t.result,
    timestamp := isoformat t.timestamp }

/-- `Transition.from_dict`. -/
def Transition.from_dict (d : TransitionData) : Transition :=
  { from_screen := d.from_screen, element_label := d.element_label,
    to_screen := d.to_screen, result := d.result,
    timestamp := fromisoformat d.timestamp }

/-- The top-level snapshot document written by `SiteMap.save_to_disk`. -/
structure SiteMapData where
  version : String
  saved_at : String
  screens : List (String × ScreenData)
  transitions : List TransitionData
  exploration_queue : List String
deriving DecidableEq

/-- `SiteMap.save_to_disk` (the document it writes; `datetime.now()` for
`saved_at` is the explicit `now` parameter, and the file-system write is the
identity on the document). -/
def SiteMap.save_to_disk (m : SiteMap) (now : Nat) : SiteMapData :=
  { version := "1.0"
    saved_at := isoformat now
    screens := m.screens.map (fun p => (p.1, p.2.to_dict))
    transitions := m.transitions.map Transition.to_dict
    exploration_queue := m.exploration_queue }

/-- `SiteMap.load_from_disk` on a present, well-formed snapshot document: the
in-memory state is fully replaced by the document's content. -/
def SiteMap.load_from_disk (data : SiteMapData) : SiteMap :=
  { screens := data.screens.map (fun p => (p.1, Screen.from_dict p.2))
    transitions := data.transitions.map Transition.from_dict
    exploration_queue := data.exploration_queue }

/-! ### Screen fingerprinting -/

/-- Python `format(n, "064x")`: lowercase hex digits of `n`, left-padded with
`'0'` to at least 64 characters. -/
def format064x (n : Nat) : String :=
  let ds := (Nat.digits 16 n).reverse.map Nat.digitChar
  String.mk (List.replicate (64 - ds.length) '0' ++ ds)

/-- The perceptual-hash branch of `SiteMap.generate_fingerprint`, starting
from the grayscale pixel values of the decoded screenshot after the
16×16 resize (`list(img.getdata())`).  The pixel average is Python float
division, modelled in `ℚ`; the bit string `"1" if p > avg else "0"` read by
`int(bits, 2)` is big-endian, so `Nat.ofDigits` consumes it reversed. -/
def generate_fingerprint (pixels : List Nat) : String :=
  let avg : ℚ := (pixels.sum : ℚ) / (pixels.length : ℚ)
  let bits : List Nat := pixels.map (fun (p : ℕ) => if avg < (p : ℚ) then 1 else 0)
  let hash_int : Nat := Nat.ofDigits 2 bits.reverse
  format064x hash_int

/-- One byte rendered as two lowercase hex characters, as in
`hashlib.sha256(…).hexdigest()`. -/
def byteToHexChars (b : Nat) : List Char :=
  [Nat.digitChar (b / 16), Nat.digitChar (b % 16)]

/-- Character sequence of a `hashlib` hexdigest for a digest given as its
byte list (sha256 always yields 32 bytes). -/
def hexdigestChars (digest : List Nat) : List Char :=
  digest.foldr (fun b acc => byteToHexChars b ++ acc) []

/-- `hashlib` hexdigest as a string. -/
def hexdigest (digest : List Nat) : String :=
  String.mk (hexdigestChars digest)

/-- The content-hash fallback branch of `SiteMap.generate_fingerprint`:
`hashlib.sha256(screenshot_bytes).hexdigest()[:64]`, starting from the
32-byte sha256 digest of the input (Python string slicing is character-level
`take`). -/
def generate_fingerprint_fallback (digest : List Nat) : String :=
  String.mk ((hexdigestChars digest).take 64)

/-- Whether `c` is a hexadecimal digit accepted by Python `int(…, 16)`. -/
def isHexChar (c : Char) : Bool :=
  (48 ≤ c.toNat && c.toNat ≤ 57) ||
  (65 ≤ c.toNat && c.toNat ≤ 70) ||
  (97 ≤ c.toNat && c.toNat ≤ 102)

/-- Numeric value of a hexadecimal digit character. -/
def hexCharVal (c : Char) : Nat :=
  if c.toNat ≤ 57 then c.toNat - 48
  else if c.toNat ≤ 70 then c.toNat - 55
  else c.toNat - 87

/-- Python `int(s, 16)` on a plain hex string: `none` models the `ValueError`
raised on a string that is not a non-empty run of hex digits. -/
def parseHex (s : String) : Option Nat :=
  if s.data ≠ [] && s.data.all isHexChar then
    some (Nat.ofDigits 16 ((s.data.map hexCharVal).reverse))
  else none

/-- `SiteMap.fingerprints_similar`: unequal lengths are never similar;
otherwise compare the popcount of the xor (`bin(xor).count("1")`), falling
back to string equality when parsing raises. -/
def fingerprints_similar (fp1 fp2 : String) (threshold : Nat := 10) : Bool :=
  if fp1.length ≠ fp2.length then false
  else
    match parseHex fp1, parseHex fp2 with
    | some int1, some int2 => (Nat.digits 2 (int1 ^^^ int2)).count 1 ≤ threshold
    | _, _ => fp1 == fp2

end SiteMapper

namespace NavigationEngine

/-- `NavigationState` from `navigation_engine.py`. -/
inductive NavigationState
  | initialized
  | navigating
  | stuck
  | error
  | completed
  | timeout
deriving DecidableEq, Repr

/-- One entry of `NavigationSession.state_transitions`
(`{"from", "to", "timestamp", "step", "reason"}`; the wall-clock timestamp is
omitted as it never influences control flow). -/
structure StateTransition where
  fromState : NavigationState
  toState : NavigationState
  step : Nat
  reason : String
deriving DecidableEq, Repr

/-- The control-relevant state of a `NavigationSession`.  Provenance fields
(`session_id`, `url`, `objective`, wall-clock times) and artifact lists whose
content never feeds back into control flow (`actions_taken`, `screenshots`)
are omitted; `issues_detected` keeps the length of the issue list. -/
structure NavigationSession where
  state : NavigationState
  step_count : Nat
  error_count : Nat
  stuck_count : Nat
  max_errors : Nat
  max_stuck_retries : Nat
  state_transitions : List StateTransition
  completion_reason : Option String
  issues_detected : Nat
deriving DecidableEq, Repr

/-- `NavigationEngine._transition_state`: set the new state and append the
transition record. -/
def transition_state (s : NavigationSession) (new_state : NavigationState)
    (reason : String) : NavigationSession :=
  { s with
    state := new_state
    state_transitions := s.state_transitions ++
      [{ fromState := s.state, toState := new_state, step := s.step_count,
         reason := reason }] }

/-- The decision returned by the vision oracle for one step
(`action.action_type`), with the executor's reported outcome attached to
executable actions: `act success` covers `click/tap/type/press_key/scroll/
wait/go_back` *and* unknown action tags, whose `_execute_action` result is the
boolean `success` (unknown tags yield `success = false`). -/
inductive StepDecision
  | done (reasoning : String)
  | stuck (reasoning : String)
  | act (success : Bool)
deriving DecidableEq, Repr

/-- What the environment does during one `execute_step` try-block:
either some call inside it (screenshot capture, oracle call, issue detector)
raises an unhandled exception before the decision is applied, or a decision is
obtained and handled. -/
inductive StepEvent
  | raised
  | decided (d : StepDecision)
deriving DecidableEq, Repr

/-- The environment of one `execute_step` call: whether the page connection is
alive, whether a browser restart succeeds when it is not, and the step event. -/
structure StepEnv where
  pageAlive : Bool
  recoverOk : Bool
  event : StepEvent
deriving DecidableEq, Repr

/-- `NavigationEngine.execute_step`: one iteration of the session control
loop.  Returns `(should_continue, updated_session)`.  Faithful to the source:
a session not in `NAVIGATING`/`STUCK` returns `False` untouched; the step
counter increments; a dead page with failed recovery is terminal `ERROR`; an
unhandled exception is caught at the iteration boundary and counted against
`error_count`; a `done` decision is terminal `COMPLETED`; a `stuck` decision
increments `stuck_count` and is terminal once `max_stuck_retries` is reached
(the in-page scroll recovery has no session-state effect and its own
exceptions are swallowed); a failed action increments `error_count`, records
an issue and is terminal `ERROR` once `max_errors` is reached, else moves to
`STUCK`; a successful action returns to `NAVIGATING` and resets
`stuck_count`. -/
def execute_step (env : StepEnv) (s0 : NavigationSession) :
    Bool × NavigationSession :=
  if s0.state ≠ .navigating ∧ s0.state ≠ .stuck then (false, s0)
  else
    let s := { s0 with step_count := s0.step_count + 1 }
    if env.pageAlive = false ∧ env.recoverOk = false then
      (false, transition_state s .error "Browser connection lost")
    else
      match env.event with
      | .raised =>
        let s := { s with error_count := s.error_count + 1 }
        if s.max_errors ≤ s.error_count then
          (false, transition_state s .error "Exception")
        else (true, s)
      | .decided (.done reasoning) =>
        let s := transition_state s .completed ("Objective completed: " ++ reasoning)
        (false, { s with completion_reason := some reasoning })
      | .decided (.stuck reasoning) =>
        let s := { s with stuck_count := s.stuck_count + 1 }
        if s.max_stuck_retries ≤ s.stuck_count then
          let s := transition_state s .stuck ("Agent stuck: " ++ reasoning)
          (false, { s with completion_reason := some ("Stuck: " ++ reasoning) })
        else
          (true, transition_state s .stuck "Stuck retry")
      | .decided (.act success) =>
        if success = false then
          let s := { s with
            error_count := s.error_count + 1
            issues_detected := s.issues_detected + 1 }
          if s.max_errors ≤ s.error_count then
            (false, transition_state s .error "Exceeded error tolerance")
          else (true, transition_state s .stuck "Action failed")
        else
          let s := if s.state = .stuck then transition_state s .navigating "Recovered" else s
          (true, { s with stuck_count := 0 })

end NavigationEngine

namespace BruteForceEngine

open ElementDiscovery SiteMapper

/-- One record written by `BruteForceLogger.log_interaction`
(`InteractionLog` from `brute_force_logger.py`; run id, screenshot paths,
error details and timing metadata are omitted as they never feed back into
control flow). -/
structure InteractionLog where
  screen_fingerprint : String
  element_label : String
  element_type : String
  action : String
  result : String
deriving DecidableEq, Repr

/-- What the browser does when `_test_element` clicks the element: either the
click and the after-capture succeed, producing the after screenshot's
fingerprint, path, url and (if the screen is new) its discovered elements, or
some call in the try-block raises an execution error. -/
inductive ClickOutcome
  | ok (after_fp after_path after_url : String) (discovered : List InteractiveElement)
  | raised (msg : String)
deriving DecidableEq, Repr

/-- The engine state mutated by `BruteForceEngine._test_element`: the site
map, the interaction log and the `errors_found` counter of `self.stats`. -/
structure EngineState where
  site_map : SiteMap
  interaction_logs : List InteractionLog
  errors_found : Nat
deriving DecidableEq

/-- `BruteForceEngine._test_element`: click one element and record the
outcome.  On success the transition is classified `navigated` (after
fingerprint differs; a new screen is registered when unknown) or `no_change`;
on an execution error the interaction is logged with result `"error"`, the
error counter increments and the source screen is marked as having issues —
the exception is caught, so the caller's loop continues. -/
def test_element (st : EngineState) (now : Nat) (screen_fp : String)
    (element : InteractiveElement) (outcome : ClickOutcome) : EngineState :=
  match outcome with
  | .ok after_fp after_path after_url discovered =>
    if after_fp ≠ screen_fp then
      let m := (st.site_map.add_transition now screen_fp element.label after_fp "navigated").2
      let m :=
        if m.is_screen_known after_fp = false then
          (m.add_screen now after_fp after_path after_url discovered).2
        else m
      { st with
        site_map := m
        interaction_logs := st.interaction_logs ++
          [{ screen_fingerprint := screen_fp, element_label := element.label,
             element_type := element.element_type, action := "click",
             result := "navigated" }] }
    else
      let m := (st.site_map.add_transition now screen_fp element.label screen_fp "no_change").2
      { st with
        site_map := m
        interaction_logs := st.interaction_logs ++
          [{ screen_fingerprint := screen_fp, element_label := element.label,
             element_type := element.element_type, action := "click",
             result := "no_change" }] }
  | .raised _ =>
    { site_map := st.site_map.mark_screen_has_issues screen_fp
      interaction_logs := st.interaction_logs ++
        [{ screen_fingerprint := screen_fp, element_label := element.label,
           element_type := element.element_type, action := "click",
           result := "error" }]
      errors_found := st.errors_found + 1 }

end BruteForceEngine

namespace SiteMapper

/-- The arguments of one `add_transition` call:
`(now, from_fingerprint, element_label, to_fingerprint, result)`. -/
structure TransitionCall where
  now : Nat
  from_fingerprint : String
  element_label : String
  to_fingerprint : String
  result : String
deriving DecidableEq

/-- Apply a sequence of `add_transition` calls to a site map. -/
def applyTransitions (m : SiteMap) (calls : List TransitionCall) : SiteMap :=
  calls.foldl
    (fun m c =>
      (m.add_transition c.now c.from_fingerprint c.element_label c.to_fingerprint c.result).2)
    m

end SiteMapper

/-! ### Concrete inputs used by witnesses and counterexamples -/

namespace Examples

open ElementDiscovery SiteMapper NavigationEngine BruteForceEngine

/-- A concrete interactive element labelled `"A"`. -/
def elemA : InteractiveElement :=
  { label := "A", element_type := "button", bounding_box := [0, 0, 100, 100],
    priority := "high", center := (50, 50), tested := false }

/-- A concrete interactive element labelled `"B"`, spatially disjoint from
`elemA`. -/
def elemB : InteractiveElement :=
  { label := "B", element_type := "link", bounding_box := [200, 0, 300, 100],
    priority := "medium", center := (50, 250), tested := false }

/-- A concrete screen holding `elemA` and `elemB`, nothing tested yet. -/
def screenS1 : Screen :=
  { fingerprint := "s1", url := "https://app.test/", screenshot_path := "s1.png",
    elements := [elemA, elemB], tested_elements := [], discovered_at := 0,
    has_issues := false }

/-- A concrete site map with the single screen `screenS1` queued for
exploration. -/
def mapS1 : SiteMap :=
  { screens := [("s1", screenS1)], transitions := [], exploration_queue := ["s1"] }

/-- A site map reached from empty by `add_screen` (one element `"A"`) and two
`add_transition` calls whose labels `"B"`, `"C"` name no element of the
screen. -/
def mapInflated : SiteMap :=
  let m0 : SiteMap := { screens := [], transitions := [], exploration_queue := [] }
  let m1 := (m0.add_screen 0 "fp1" "fp1.png" "https://app.test/" [elemA]).2
  let m2 := (m1.add_transition 1 "fp1" "B" "fp1" "no_change").2
  (m2.add_transition 2 "fp1" "C" "fp1" "no_change").2

/-- A fresh navigation session in the `NAVIGATING` state with the default
budgets of the source (`max_errors = 3`, `max_stuck_retries = 3`). -/
def navStart : NavigationSession :=
  { state := .navigating, step_count := 0, error_count := 0, stuck_count := 0,
    max_errors := 3, max_stuck_retries := 3, state_transitions := [],
    completion_reason := none, issues_detected := 0 }

/-- A healthy-page step whose oracle decision is `"stuck"`. -/
def stuckEnv : StepEnv :=
  { pageAlive := true, recoverOk := true, event := .decided (.stuck "no progress") }

/-- A healthy-page step in which the try-block raises an unhandled exception. -/
def raisedEnv : StepEnv :=
  { pageAlive := true, recoverOk := true, event := .raised }

/-- A healthy-page step whose action executes and reports failure. -/
def failEnv : StepEnv :=
  { pageAlive := true, recoverOk := true, event := .decided (.act false) }

/-- Brute-force engine state over `mapS1` with empty logs and no errors. -/
def engineStart : EngineState :=
  { site_map := mapS1, interaction_logs := [], errors_found := 0 }

end Examples

/-! ## Theorems -/

namespace ElementDiscovery

/-- If the clipped intersection is degenerate in at least one axis (the
clipped max is at most the clipped min), the IoU is zero: either the strict
guard fires, or the intersection area is zero and `0 / union = 0`. -/
theorem iouCore_eq_zero_of_thin (ya xa yb xb yc xc yd xd : ℤ)
    (h : min xb xd ≤ max xa xc ∨ min yb yd ≤ max ya yc) :
    iouCore ya xa yb xb yc xc yd xd = 0 := by
  simp only [iouCore]
  by_cases hg : min xb xd < max xa xc ∨ min yb yd < max ya yc
  · rw [if_pos hg]
  · rw [if_neg hg]
    push_neg at hg
    have hzero : ((min xb xd - max xa xc) * (min yb yd - max ya yc) : ℤ) = 0 := by
      rcases h with h | h
      · have hx : min xb xd = max xa xc := le_antisymm h hg.1
        rw [hx]; ring
      · have hy : min yb yd = max ya yc := le_antisymm h hg.2
        rw [hy]; ring
    rw [hzero]
    push_cast
    simp only [sub_zero, zero_div]
    split_ifs <;> rfl

/-- A box with zero signed area forces a degenerate clipped intersection. -/
theorem iouCore_eq_zero_of_zero_area (ya xa yb xb yc xc yd xd : ℤ)
    (h : (xb - xa) * (yb - ya) = 0 ∨ (xd - xc) * (yd - yc) = 0) :
    iouCore ya xa yb xb yc xc yd xd = 0 := by
  apply iouCore_eq_zero_of_thin
  rcases h with h | h <;> rcases mul_eq_zero.mp h with h | h
  · left
    have hx : xb = xa := by omega
    exact le_trans (min_le_left _ _) (hx ▸ le_max_left _ _)
  · right
    have hy : yb = ya := by omega
    exact le_trans (min_le_left _ _) (hy ▸ le_max_left _ _)
  · left
    have hx : xd = xc := by omega
    exact le_trans (min_le_right _ _) (hx ▸ le_max_right _ _)
  · right
    have hy : yd = yc := by omega
    exact le_trans (min_le_right _ _) (hy ▸ le_max_right _ _)

/-- IoU of a well-formed box of nonzero area with itself is `1`. -/
theorem iouCore_self (ya xa yb xb : ℤ) (hy : ya ≤ yb) (hx : xa ≤ xb)
    (hpos : (xb - xa) * (yb - ya) ≠ 0) :
    iouCore ya xa yb xb ya xa yb xb = 1 := by
  simp only [iouCore, min_self, max_self]
  rw [if_neg (by push_neg; exact ⟨hx, hy⟩)]
  have harea : ((xb - xa) * (yb - ya) : ℚ) ≠ 0 := by exact_mod_cast hpos
  rw [if_neg (by push_cast; ring_nf; intro hc; exact harea (by linarith))]
  push_cast
  rw [div_eq_one_iff_eq (by intro hc; exact harea (by linarith))]
  ring

end ElementDiscovery

namespace ElementDiscovery

/-- Membership in `deduplicate_elements` output means every existing element
overlaps strictly below the threshold. -/
theorem mem_deduplicate_iou_lt (elements existing : List InteractiveElement)
    (threshold : ℚ) (e : InteractiveElement)
    (he : e ∈ deduplicate_elements elements existing threshold) :
    ∀ o ∈ existing, calculate_iou e.bounding_box o.bounding_box < threshold := by
  intro o ho
  unfold deduplicate_elements at he
  rw [List.mem_filter] at he
  have h2 := he.2
  simp only [Bool.not_eq_true', List.any_eq_false, decide_eq_false_iff_not, not_le] at h2
  have h3 : ¬ threshold ≤ calculate_iou e.bounding_box o.bounding_box := by
    simpa using h2 o ho
  exact not_le.mp h3

end ElementDiscovery

/-- C7 counterexample: the two bounding boxes `[0,0,0,0]` are identical, yet
`_calculate_iou` returns `0`, not `1` (the union is zero, so the
divide-by-zero guard fires), refuting the claim's unconditional
"IoU = 1.0 for two identical bounding boxes". -/
theorem iou_identical_zero_area_ne_one :
    ElementDiscovery.calculate_iou [0, 0, 0, 0] [0, 0, 0, 0] ≠ 1 := by
  norm_num [ElementDiscovery.calculate_iou, ElementDiscovery.iouCore]

/-- C7 (amended): IoU is `1.0` for two identical well-formed boxes of nonzero
area; `0.0` for two non-overlapping boxes; `0.0` whenever either box has zero
area; and `deduplicate_elements` never returns an element whose IoU against
some existing element reaches the threshold. -/
theorem iou_dedupe_spec :
    (∀ ya xa yb xb : ℤ, ya ≤ yb → xa ≤ xb →
      ElementDiscovery.boxArea [ya, xa, yb, xb] ≠ 0 →
      ElementDiscovery.calculate_iou [ya, xa, yb, xb] [ya, xa, yb, xb] = 1) ∧
    (∀ ya xa yb xb yc xc yd xd : ℤ,
      xb ≤ xc ∨ xd ≤ xa ∨ yb ≤ yc ∨ yd ≤ ya →
      ElementDiscovery.calculate_iou [ya, xa, yb, xb] [yc, xc, yd, xd] = 0) ∧
    (∀ ya xa yb xb yc xc yd xd : ℤ,
      ElementDiscovery.boxArea [ya, xa, yb, xb] = 0 ∨
        ElementDiscovery.boxArea [yc, xc, yd, xd] = 0 →
      ElementDiscovery.calculate_iou [ya, xa, yb, xb] [yc, xc, yd, xd] = 0) ∧
    (∀ elements existing (threshold : ℚ) e,
      e ∈ ElementDiscovery.deduplicate_elements elements existing threshold →
      ∀ o ∈ existing,
        ElementDiscovery.calculate_iou e.bounding_box o.bounding_box < threshold) := by
  refine ⟨?_, ?_, ?_, ?_⟩
  · intro ya xa yb xb hy hx hpos
    simp only [ElementDiscovery.calculate_iou]
    exact ElementDiscovery.iouCore_self ya xa yb xb hy hx
      (by simpa [ElementDiscovery.boxArea] using hpos)
  · intro ya xa yb xb yc xc yd xd h
    simp only [ElementDiscovery.calculate_iou]
    apply ElementDiscovery.iouCore_eq_zero_of_thin
    rcases h with h | h | h | h
    · left; exact le_trans (min_le_left _ _) (le_trans h (le_max_right _ _))
    · left; exact le_trans (min_le_right _ _) (le_trans h (le_max_left _ _))
    · right; exact le_trans (min_le_left _ _) (le_trans h (le_max_right _ _))
    · right; exact le_trans (min_le_right _ _) (le_trans h (le_max_left _ _))
  · intro ya xa yb xb yc xc yd xd h
    simp only [ElementDiscovery.calculate_iou]
    apply ElementDiscovery.iouCore_eq_zero_of_zero_area
    simpa [ElementDiscovery.boxArea] using h
  · exact ElementDiscovery.mem_deduplicate_iou_lt

/-- C7 witness: the amended claim evaluated at concrete boxes and elements. -/
theorem iou_dedupe_spec_witness :
    ElementDiscovery.calculate_iou [0, 0, 10, 10] [0, 0, 10, 10] = 1 ∧
    ElementDiscovery.calculate_iou [0, 0, 10, 10] [0, 20, 10, 30] = 0 ∧
    ElementDiscovery.calculate_iou [5, 5, 5, 9] [0, 0, 10, 10] = 0 ∧
    (∀ o ∈ [Examples.elemB],
      ElementDiscovery.calculate_iou Examples.elemA.bounding_box o.bounding_box
        < (8 : ℚ) / 10) := by
  refine ⟨?_, ?_, ?_, ?_⟩
  · exact iou_dedupe_spec.1 0 0 10 10 (by norm_num) (by norm_num)
      (by norm_num [ElementDiscovery.boxArea])
  · exact iou_dedupe_spec.2.1 0 0 10 10 0 20 10 30 (by norm_num)
  · exact iou_dedupe_spec.2.2.1 5 5 5 9 0 0 10 10
      (Or.inl (by norm_num [ElementDiscovery.boxArea]))
  · exact iou_dedupe_spec.2.2.2 [Examples.elemA] [Examples.elemB] ((8 : ℚ) / 10)
      Examples.elemA
      (by
        simp [ElementDiscovery.deduplicate_elements, Examples.elemA, Examples.elemB,
          ElementDiscovery.calculate_iou, ElementDiscovery.iouCore])


namespace SiteMapper

/-- A successful dequeue leaves the found fingerprint at the head of the
remaining queue, and that screen has untested elements. -/
theorem dequeueUntil_some_head (screens : List (String × Screen))
    (q : List String) (fp : String) (q' : List String)
    (h : dequeueUntil screens q = (some fp, q')) :
    q'.head? = some fp ∧ untestedUnder screens fp ≠ [] := by
  induction q with
  | nil => simp [dequeueUntil] at h
  | cons a rest ih =>
    simp only [dequeueUntil] at h
    by_cases hu : untestedUnder screens a ≠ []
    · rw [if_pos hu] at h
      have h1 : a = fp := by simpa using congrArg Prod.fst h
      have h2 : a :: rest = q' := congrArg Prod.snd h
      subst h1
      subst h2
      exact ⟨rfl, hu⟩
    · rw [if_neg hu] at h
      exact ih h

/-- An exhausted dequeue empties the queue. -/
theorem dequeueUntil_none_empty (screens : List (String × Screen))
    (q q' : List String) (h : dequeueUntil screens q = (none, q')) : q' = [] := by
  induction q with
  | nil => simpa using (congrArg Prod.snd h).symm
  | cons a rest ih =>
    simp only [dequeueUntil] at h
    by_cases hu : untestedUnder screens a ≠ []
    · rw [if_pos hu] at h
      exact absurd (congrArg Prod.fst h) (by simp)
    · rw [if_neg hu] at h
      exact ih h

/-- The dequeue loop only pops fully-tested (or unknown) heads: the remaining
queue is a suffix of the original, and every popped entry had no untested
elements. -/
theorem dequeueUntil_suffix (screens : List (String × Screen)) (q : List String) :
    ∃ k, (dequeueUntil screens q).2 = q.drop k ∧
      ∀ fp ∈ q.take k, untestedUnder screens fp = [] := by
  induction q with
  | nil => exact ⟨0, rfl, by simp⟩
  | cons a rest ih =>
    simp only [dequeueUntil]
    by_cases hu : untestedUnder screens a ≠ []
    · rw [if_pos hu]
      exact ⟨0, rfl, by simp⟩
    · rw [if_neg hu]
      obtain ⟨k, h1, h2⟩ := ih
      refine ⟨k + 1, by simpa using h1, ?_⟩
      intro fp hfp
      rw [List.take_succ_cons, List.mem_cons] at hfp
      rcases hfp with rfl | hfp
      · exact not_not.mp hu
      · exact h2 fp hfp

/-- On a table with no duplicate keys (a Python dict), membership determines
lookup. -/
theorem lookupScreen_of_mem_nodup (screens : List (String × Screen))
    (hnd : (screens.map Prod.fst).Nodup) (k : String) (s : Screen)
    (hmem : (k, s) ∈ screens) : lookupScreen screens k = some s := by
  induction screens with
  | nil => simp at hmem
  | cons p rest ih =>
    obtain ⟨k0, s0⟩ := p
    rw [List.map_cons, List.nodup_cons] at hnd
    rw [List.mem_cons] at hmem
    simp only [lookupScreen]
    rcases hmem with heq | hmem
    · injection heq with h1 h2
      subst h1; subst h2
      rw [if_pos rfl]
    · by_cases hk : k0 = k
      · subst hk
        exact absurd (List.mem_map_of_mem Prod.fst hmem) hnd.1
      · rw [if_neg hk]
        exact ih hnd.2 hmem

end SiteMapper

/-- C3: `get_next_screen_to_explore` pops only fully-tested (or unknown)
queue heads, leaving the remaining queue a suffix of the original; any
returned fingerprint has untested elements; a fingerprint found via the
queue stays at the head of the queue (lazy eviction, not removed); and
`none` is returned only when every known screen has no untested elements
(the queue-empty case falls back to the full screen scan). -/
theorem get_next_screen_spec (m : SiteMapper.SiteMap)
    (hnd : (m.screens.map Prod.fst).Nodup) :
    (∃ k, (m.get_next_screen_to_explore).2.exploration_queue =
        m.exploration_queue.drop k ∧
      ∀ fp ∈ m.exploration_queue.take k, m.get_untested_elements fp = []) ∧
    (∀ fp, (m.get_next_screen_to_explore).1 = some fp →
      m.get_untested_elements fp ≠ []) ∧
    (∀ fp, (m.get_next_screen_to_explore).1 = some fp →
      (m.get_next_screen_to_explore).2.exploration_queue ≠ [] →
      (m.get_next_screen_to_explore).2.exploration_queue.head? = some fp) ∧
    ((m.get_next_screen_to_explore).1 = none →
      ∀ p ∈ m.screens, p.2.get_untested_elements = []) := by
  obtain ⟨k, hdrop, hpopped⟩ :=
    SiteMapper.dequeueUntil_suffix m.screens m.exploration_queue
  unfold SiteMapper.SiteMap.get_next_screen_to_explore
  rcases hd : SiteMapper.dequeueUntil m.screens m.exploration_queue with ⟨r, q⟩
  rw [hd] at hdrop
  cases r with
  | some fp =>
    obtain ⟨hhead, huntested⟩ := SiteMapper.dequeueUntil_some_head _ _ _ _ hd
    dsimp only at hdrop ⊢
    refine ⟨⟨k, hdrop, hpopped⟩, ?_, ?_, ?_⟩
    · intro fp' hfp'
      have : fp = fp' := by simpa using hfp'
      subst this
      exact huntested
    · intro fp' hfp' hne
      have : fp = fp' := by simpa using hfp'
      subst this
      exact hhead
    · intro hnone
      simp at hnone
  | none =>
    have hq : q = [] := SiteMapper.dequeueUntil_none_empty _ _ _ hd
    subst hq
    dsimp only at hdrop ⊢
    refine ⟨⟨k, hdrop, hpopped⟩, ?_, ?_, ?_⟩
    · intro fp hfp
      rw [Option.map_eq_some'] at hfp
      obtain ⟨p, hfind, hfst⟩ := hfp
      have hmem := List.mem_of_find?_eq_some hfind
      have hpred := List.find?_some hfind
      simp only [Bool.not_eq_eq_eq_not, Bool.not_false, List.isEmpty_eq_true] at hpred
      have hlookup := SiteMapper.lookupScreen_of_mem_nodup m.screens hnd p.1 p.2 hmem
      subst hfst
      simp only [SiteMapper.SiteMap.get_untested_elements, SiteMapper.untestedUnder, hlookup]
      simpa using hpred
    · intro fp hfp hne
      simp at hne
    · intro hnone p hp
      rw [Option.map_eq_none', List.find?_eq_none] at hnone
      have := hnone p hp
      simpa using this

/-- C3 witness: the lazy-eviction specification evaluated on the concrete
single-screen site map (which has no duplicate keys). -/
theorem get_next_screen_spec_witness :
    (∃ k, (Examples.mapS1.get_next_screen_to_explore).2.exploration_queue =
        Examples.mapS1.exploration_queue.drop k ∧
      ∀ fp ∈ Examples.mapS1.exploration_queue.take k,
        Examples.mapS1.get_untested_elements fp = []) ∧
    (∀ fp, (Examples.mapS1.get_next_screen_to_explore).1 = some fp →
      Examples.mapS1.get_untested_elements fp ≠ []) ∧
    (∀ fp, (Examples.mapS1.get_next_screen_to_explore).1 = some fp →
      (Examples.mapS1.get_next_screen_to_explore).2.exploration_queue ≠ [] →
      (Examples.mapS1.get_next_screen_to_explore).2.exploration_queue.head? = some fp) ∧
    ((Examples.mapS1.get_next_screen_to_explore).1 = none →
      ∀ p ∈ Examples.mapS1.screens, p.2.get_untested_elements = []) :=
  get_next_screen_spec Examples.mapS1 (by simp [Examples.mapS1])

/-- C5: `add_screen` is idempotent — if the fingerprint is already present it
returns the stored Screen and leaves the map untouched (no merge, no
duplicate in `screens` or `exploration_queue`); a fresh fingerprint creates
the Screen with the given fields and appends it to `screens` and to
`exploration_queue`. -/
theorem add_screen_spec (m : SiteMapper.SiteMap) (now : Nat)
    (fp screenshot_path url : String)
    (elements : List ElementDiscovery.InteractiveElement) :
    (∀ s0, SiteMapper.lookupScreen m.screens fp = some s0 →
      m.add_screen now fp screenshot_path url elements = (s0, m)) ∧
    (SiteMapper.lookupScreen m.screens fp = none →
      (m.add_screen now fp screenshot_path url elements).1 =
        { fingerprint := fp, url := url, screenshot_path := screenshot_path,
          elements := elements, tested_elements := [], discovered_at := now,
          has_issues := false } ∧
      (m.add_screen now fp screenshot_path url elements).2.screens =
        m.screens ++ [(fp, (m.add_screen now fp screenshot_path url elements).1)] ∧
      (m.add_screen now fp screenshot_path url elements).2.exploration_queue =
        m.exploration_queue ++ [fp] ∧
      (m.add_screen now fp screenshot_path url elements).2.transitions =
        m.transitions) := by
  constructor
  · intro s0 hl
    unfold SiteMapper.SiteMap.add_screen
    rw [hl]
  · intro hl
    unfold SiteMapper.SiteMap.add_screen
    rw [hl]
    exact ⟨rfl, rfl, rfl, rfl⟩

/-- C5 witness: re-adding the known fingerprint `"s1"` returns the stored
screen and leaves the concrete map unchanged; adding the fresh fingerprint
`"s2"` appends it to the screen table and the exploration queue. -/
theorem add_screen_spec_witness :
    Examples.mapS1.add_screen 7 "s1" "x.png" "u" [] =
      (Examples.screenS1, Examples.mapS1) ∧
    (Examples.mapS1.add_screen 7 "s2" "s2.png" "u2" []).2.screens =
      Examples.mapS1.screens ++
        [("s2", (Examples.mapS1.add_screen 7 "s2" "s2.png" "u2" []).1)] ∧
    (Examples.mapS1.add_screen 7 "s2" "s2.png" "u2" []).2.exploration_queue =
      Examples.mapS1.exploration_queue ++ ["s2"] := by
  refine ⟨?_, ?_, ?_⟩
  · exact (add_screen_spec Examples.mapS1 7 "s1" "x.png" "u" []).1 Examples.screenS1
      (by simp [Examples.mapS1, SiteMapper.lookupScreen])
  · exact ((add_screen_spec Examples.mapS1 7 "s2" "s2.png" "u2" []).2
      (by simp [Examples.mapS1, SiteMapper.lookupScreen])).2.1
  · exact ((add_screen_spec Examples.mapS1 7 "s2" "s2.png" "u2" []).2
      (by simp [Examples.mapS1, SiteMapper.lookupScreen])).2.2.1

namespace SiteMapper

/-- `roundHalfEven` never rounds further up than the next integer. -/
theorem roundHalfEven_le_floor_add_one (q : ℚ) : roundHalfEven q ≤ ⌊q⌋ + 1 := by
  simp only [roundHalfEven]
  split_ifs <;> omega

/-- `roundHalfEven` never rounds below the floor. -/
theorem floor_le_roundHalfEven (q : ℚ) : ⌊q⌋ ≤ roundHalfEven q := by
  simp only [roundHalfEven]
  split_ifs <;> omega

/-- Round-half-to-even is monotone. -/
theorem roundHalfEven_mono {x y : ℚ} (h : x ≤ y) :
    roundHalfEven x ≤ roundHalfEven y := by
  rcases lt_or_eq_of_le (Int.floor_mono h) with hf | hf
  · calc roundHalfEven x ≤ ⌊x⌋ + 1 := roundHalfEven_le_floor_add_one x
      _ ≤ ⌊y⌋ := by omega
      _ ≤ roundHalfEven y := floor_le_roundHalfEven y
  · simp only [roundHalfEven, ← hf]
    have hfx := Int.sub_one_lt_floor x
    have hfy : x - ⌊x⌋ ≤ y - ⌊x⌋ := by linarith
    split_ifs <;> first | omega | linarith

/-- `pythonRound1` is monotone. -/
theorem pythonRound1_mono {x y : ℚ} (h : x ≤ y) :
    pythonRound1 x ≤ pythonRound1 y := by
  have hcast : ((roundHalfEven (10 * x) : ℤ) : ℚ) ≤ ((roundHalfEven (10 * y) : ℤ) : ℚ) := by
    exact_mod_cast roundHalfEven_mono (by linarith)
  simp only [pythonRound1]
  linarith

/-- `markTested` does not change any screen's element list length. -/
theorem markTested_map_elements (screens : List (String × Screen))
    (fp element_label : String) :
    (markTested screens fp element_label).map (fun p => p.2.elements.length) =
      screens.map (fun p => p.2.elements.length) := by
  induction screens with
  | nil => rfl
  | cons p rest ih =>
    obtain ⟨k, s⟩ := p
    simp only [markTested]
    by_cases hk : k = fp
    · rw [if_pos hk]
      simp [Screen.mark_element_tested]
    · rw [if_neg hk]
      simp [ih]

/-- Inserting into a set never shrinks it. -/
theorem length_le_length_insert (l : List String) (a : String) :
    l.length ≤ (l.insert a).length := by
  by_cases h : a ∈ l
  · rw [List.insert_of_mem h]
  · rw [List.insert_of_not_mem h]
    simp

/-- `markTested` never shrinks the total tested count. -/
theorem markTested_tested_sum_le (screens : List (String × Screen))
    (fp element_label : String) :
    (screens.map (fun p => p.2.tested_elements.length)).sum ≤
      ((markTested screens fp element_label).map
        (fun p => p.2.tested_elements.length)).sum := by
  induction screens with
  | nil => exact le_rfl
  | cons p rest ih =>
    obtain ⟨k, s⟩ := p
    simp only [markTested]
    by_cases hk : k = fp
    · rw [if_pos hk]
      simp only [List.map_cons, List.sum_cons, Screen.mark_element_tested]
      exact Nat.add_le_add (length_le_length_insert _ _) le_rfl
    · rw [if_neg hk]
      simp only [List.map_cons, List.sum_cons]
      exact Nat.add_le_add le_rfl ih

/-- One `add_transition` call preserves the total element count and never
decreases the tested count. -/
theorem add_transition_stats_step (m : SiteMap) (now : Nat) (a b c d : String) :
    ((m.add_transition now a b c d).2.get_coverage_stats).total_elements =
      (m.get_coverage_stats).total_elements ∧
    (m.get_coverage_stats).tested_elements ≤
      ((m.add_transition now a b c d).2.get_coverage_stats).tested_elements := by
  constructor
  · show ((markTested m.screens a b).map (fun p => p.2.elements.length)).sum =
      (m.screens.map (fun p => p.2.elements.length)).sum
    rw [markTested_map_elements]
  · exact markTested_tested_sum_le m.screens a b

/-- Folding `add_transition` calls preserves the total and never decreases the
tested count. -/
theorem applyTransitions_stats (calls : List TransitionCall) (m : SiteMap) :
    ((applyTransitions m calls).get_coverage_stats).total_elements =
      (m.get_coverage_stats).total_elements ∧
    (m.get_coverage_stats).tested_elements ≤
      ((applyTransitions m calls).get_coverage_stats).tested_elements := by
  induction calls generalizing m with
  | nil => exact ⟨rfl, le_rfl⟩
  | cons c rest ih =>
    have hstep := add_transition_stats_step m c.now c.from_fingerprint
      c.element_label c.to_fingerprint c.result
    have hrest := ih (m.add_transition c.now c.from_fingerprint
      c.element_label c.to_fingerprint c.result).2
    refine ⟨?_, ?_⟩
    · show ((applyTransitions _ rest).get_coverage_stats).total_elements = _
      rw [hrest.1, hstep.1]
    · exact le_trans hstep.2 hrest.2

end SiteMapper

/-- C6: across any sequence of `add_transition` calls, the reported
`tested_elements` count and `coverage_percent` are non-decreasing. -/
theorem coverage_monotone_spec (m : SiteMapper.SiteMap)
    (calls : List SiteMapper.TransitionCall) :
    (m.get_coverage_stats).tested_elements ≤
      ((SiteMapper.applyTransitions m calls).get_coverage_stats).tested_elements ∧
    (m.get_coverage_stats).coverage_percent ≤
      ((SiteMapper.applyTransitions m calls).get_coverage_stats).coverage_percent := by
  obtain ⟨htot, hle⟩ := SiteMapper.applyTransitions_stats calls m
  refine ⟨hle, ?_⟩
  show SiteMapper.pythonRound1 _ ≤ SiteMapper.pythonRound1 _
  apply SiteMapper.pythonRound1_mono
  set T := (m.get_coverage_stats).total_elements with hT
  have htot' : ((SiteMapper.applyTransitions m calls).get_coverage_stats).total_elements = T := htot
  rw [show ((SiteMapper.applyTransitions m calls).screens.map
        (fun p => p.2.elements.length)).sum = T from htot']
  rw [show (m.screens.map (fun p => p.2.elements.length)).sum = T from rfl]
  by_cases hpos : 0 < T
  · rw [if_pos hpos, if_pos hpos]
    have hcast : ((m.get_coverage_stats).tested_elements : ℚ) ≤
        (((SiteMapper.applyTransitions m calls).get_coverage_stats).tested_elements : ℚ) := by
      exact_mod_cast hle
    have hTpos : (0 : ℚ) ≤ (T : ℚ) := by positivity
    have hdiv := div_le_div_of_nonneg_right hcast hTpos
    exact mul_le_mul_of_nonneg_right hdiv (by norm_num)
  · rw [if_neg hpos, if_neg hpos]

namespace SiteMapper

/-- Rounding an integer changes nothing. -/
theorem roundHalfEven_intCast (n : ℤ) : roundHalfEven (n : ℚ) = n := by
  simp [roundHalfEven]

/-- `round(n, 1)` of an integer changes nothing. -/
theorem pythonRound1_intCast (n : ℤ) : pythonRound1 (n : ℚ) = (n : ℚ) := by
  have h : (10 : ℚ) * (n : ℚ) = ((10 * n : ℤ) : ℚ) := by push_cast; ring
  simp only [pythonRound1, h, roundHalfEven_intCast]
  push_cast
  ring

end SiteMapper

/-- C9: `add_transition` marks the given label tested on a known from-screen
even when no element with that label exists there, so the tested-label set can
outgrow the element list and `get_coverage_stats` reports `tested_elements`
greater than `total_elements` and a `coverage_percent` above 100: on the
reachable map `mapInflated` (one screen with the single element `"A"`, plus
transitions for the non-existent labels `"B"` and `"C"`), the stats report
2 tested out of 1 total and 200% coverage. -/
theorem coverage_exceeds_100 :
    (Examples.mapInflated.get_coverage_stats).tested_elements = 2 ∧
    (Examples.mapInflated.get_coverage_stats).total_elements = 1 ∧
    (Examples.mapInflated.get_coverage_stats).coverage_percent = 200 ∧
    100 < (Examples.mapInflated.get_coverage_stats).coverage_percent := by
  have htested : (Examples.mapInflated.get_coverage_stats).tested_elements = 2 := by decide
  have htotal : (Examples.mapInflated.get_coverage_stats).total_elements = 1 := by decide
  have hpct : (Examples.mapInflated.get_coverage_stats).coverage_percent = 200 := by
    show SiteMapper.pythonRound1 _ = 200
    rw [show ((Examples.mapInflated.screens.map (fun p => p.2.elements.length)).sum : ℕ) = 1
        from htotal]
    rw [show ((Examples.mapInflated.screens.map
        (fun p => p.2.tested_elements.length)).sum : ℕ) = 2 from htested]
    rw [if_pos (by norm_num)]
    rw [show ((2 : ℕ) : ℚ) / ((1 : ℕ) : ℚ) * 100 = ((200 : ℤ) : ℚ) by norm_num]
    rw [SiteMapper.pythonRound1_intCast]
    norm_num
  exact ⟨htested, htotal, hpct, by rw [hpct]; norm_num⟩

namespace SiteMapper

open ElementDiscovery

/-- Decimal digit characters decode to their value. -/
theorem charToDigit_digitChar (d : ℕ) (h : d < 10) :
    charToDigit (Nat.digitChar d) = d := by
  interval_cases d <;> rfl

/-- The timestamp encoding parses back exactly. -/
theorem fromisoformat_isoformat (t : ℕ) : fromisoformat (isoformat t) = t := by
  simp only [isoformat, fromisoformat]
  rw [List.map_map]
  have hmap : ((Nat.digits 10 t).reverse.map (charToDigit ∘ Nat.digitChar)) =
      (Nat.digits 10 t).reverse := by
    have : ∀ d ∈ (Nat.digits 10 t).reverse, (charToDigit ∘ Nat.digitChar) d = d := by
      intro d hd
      rw [List.mem_reverse] at hd
      exact charToDigit_digitChar d (Nat.digits_lt_base (by norm_num) hd)
    calc (Nat.digits 10 t).reverse.map (charToDigit ∘ Nat.digitChar)
        = (Nat.digits 10 t).reverse.map id := List.map_congr_left this
      _ = (Nat.digits 10 t).reverse := List.map_id _
  rw [hmap, List.reverse_reverse, Nat.ofDigits_digits]

/-- Element serialisation round-trips exactly. -/
theorem elementFromDict_elementToDict (e : InteractiveElement) :
    elementFromDict (elementToDict e) = e := by
  cases e
  simp [elementToDict, elementFromDict, tupleOfList]

/-- Screen serialisation round-trips exactly. -/
theorem screen_from_dict_to_dict (s : Screen) : Screen.from_dict s.to_dict = s := by
  cases s with
  | mk fingerprint url screenshot_path elements tested discovered has_issues =>
    simp only [Screen.to_dict, Screen.from_dict, fromisoformat_isoformat, List.map_map]
    congr 1
    calc elements.map (elementFromDict ∘ elementToDict)
        = elements.map id :=
          List.map_congr_left (fun e _ => elementFromDict_elementToDict e)
      _ = elements := List.map_id _

/-- Transition serialisation round-trips exactly. -/
theorem transition_from_dict_to_dict (t : Transition) :
    Transition.from_dict t.to_dict = t := by
  cases t
  simp [Transition.to_dict, Transition.from_dict, fromisoformat_isoformat]

end SiteMapper

/-- C4: loading a saved snapshot reproduces the site map exactly — equal
screen table (all fields, including element lists, tested-label sets,
timestamps and `has_issues`), equal ordered transition list, and equal ordered
exploration queue. -/
theorem snapshot_roundtrip (m : SiteMapper.SiteMap) (now : Nat) :
    SiteMapper.SiteMap.load_from_disk (m.save_to_disk now) = m := by
  cases m with
  | mk screens transitions queue =>
    simp only [SiteMapper.SiteMap.save_to_disk, SiteMapper.SiteMap.load_from_disk,
      List.map_map]
    congr 1
    · calc screens.map ((fun p => (p.1, SiteMapper.Screen.from_dict p.2)) ∘
            (fun p => (p.1, p.2.to_dict)))
          = screens.map id := by
            apply List.map_congr_left
            intro p _
            simp [SiteMapper.screen_from_dict_to_dict p.2]
        _ = screens := List.map_id _
    · calc transitions.map (SiteMapper.Transition.from_dict ∘ SiteMapper.Transition.to_dict)
          = transitions.map id :=
            List.map_congr_left (fun t _ => SiteMapper.transition_from_dict_to_dict t)
        _ = transitions := List.map_id _

namespace SiteMapper

/-- Bounded numbers have boundedly many digits. -/
theorem digits_length_le_of_lt {b n k : ℕ} (hb : 1 < b) (h : n < b ^ k) :
    (Nat.digits b n).length ≤ k := by
  rcases eq_or_ne n 0 with rfl | hn
  · simp
  · rw [Nat.digits_len b n hb hn]
    have := Nat.log_lt_of_lt_pow hn h
    omega

/-- `format(n, "064x")` has exactly 64 characters when `n < 16 ^ 64`. -/
theorem format064x_length (n : ℕ) (h : n < 16 ^ 64) :
    (format064x n).length = 64 := by
  have hle : ((Nat.digits 16 n).reverse.map Nat.digitChar).length ≤ 64 := by
    simpa using digits_length_le_of_lt (by norm_num) h
  simp only [format064x, String.length]
  rw [List.length_append, List.length_replicate]
  omega

/-- Hex digit characters are hexadecimal. -/
theorem isHexChar_digitChar (d : ℕ) (h : d < 16) :
    isHexChar (Nat.digitChar d) = true := by
  interval_cases d <;> rfl

/-- Every character of `format(n, "064x")` is a hexadecimal digit. -/
theorem format064x_hex (n : ℕ) :
    (format064x n).data.all isHexChar = true := by
  simp only [format064x]
  rw [List.all_append]
  apply Bool.and_eq_true_iff.mpr
  constructor
  · rw [List.all_eq_true]
    intro c hc
    rw [List.eq_of_mem_replicate hc]
    rfl
  · rw [List.all_eq_true]
    intro c hc
    rw [List.mem_map] at hc
    obtain ⟨d, hd, rfl⟩ := hc
    rw [List.mem_reverse] at hd
    exact isHexChar_digitChar d (Nat.digits_lt_base (by norm_num) hd)

/-- The hexdigest of a byte list has two characters per byte. -/
theorem hexdigestChars_length (digest : List ℕ) :
    (hexdigestChars digest).length = 2 * digest.length := by
  induction digest with
  | nil => rfl
  | cons b rest ih =>
    show (byteToHexChars b ++ hexdigestChars rest).length = 2 * (b :: rest).length
    rw [List.length_append, ih]
    simp only [byteToHexChars, List.length_cons, List.length_nil]
    omega

/-- Every character of the hexdigest of genuine bytes is hexadecimal. -/
theorem hexdigestChars_hex (digest : List ℕ) (h : ∀ b ∈ digest, b < 256) :
    (hexdigestChars digest).all isHexChar = true := by
  induction digest with
  | nil => rfl
  | cons b rest ih =>
    have hb : b < 256 := h b (List.mem_cons_self b rest)
    show (byteToHexChars b ++ hexdigestChars rest).all isHexChar = true
    rw [List.all_append]
    apply Bool.and_eq_true_iff.mpr
    refine ⟨?_, ih (fun x hx => h x (List.mem_cons_of_mem b hx))⟩
    have h1 := isHexChar_digitChar (b / 16) (Nat.div_lt_of_lt_mul (by omega))
    have h2 := isHexChar_digitChar (b % 16) (Nat.mod_lt _ (by norm_num))
    simp [byteToHexChars, h1, h2]

/-- The perceptual branch, with its lets unfolded. -/
theorem generate_fingerprint_eq (pixels : List ℕ) :
    generate_fingerprint pixels = format064x (Nat.ofDigits 2
      (pixels.map (fun (p : ℕ) =>
        if ((pixels.sum : ℚ) / (pixels.length : ℚ)) < (p : ℚ) then 1 else 0)).reverse) :=
  rfl

end SiteMapper

/-- C10: both fingerprint branches emit exactly 64 hexadecimal characters —
the perceptual branch because a 16×16 grid yields 256 bits, i.e. a value below
`16 ^ 64`, zero-padded to width 64, and the sha256 fallback because a 32-byte
digest renders as 64 hex characters (so truncation at 64 is the identity) —
hence any two produced fingerprints have equal length, and
`fingerprints_similar` returns `false` outright for unequal-length inputs. -/
theorem generate_fingerprint_spec :
    (∀ pixels : List ℕ, pixels.length = 256 →
      (SiteMapper.generate_fingerprint pixels).length = 64 ∧
      (SiteMapper.generate_fingerprint pixels).data.all SiteMapper.isHexChar = true) ∧
    (∀ digest : List ℕ, digest.length = 32 → (∀ b ∈ digest, b < 256) →
      (SiteMapper.generate_fingerprint_fallback digest).length = 64 ∧
      (SiteMapper.generate_fingerprint_fallback digest).data.all
        SiteMapper.isHexChar = true) ∧
    (∀ (fp1 fp2 : String) (threshold : ℕ), fp1.length ≠ fp2.length →
      SiteMapper.fingerprints_similar fp1 fp2 threshold = false) := by
  refine ⟨?_, ?_, ?_⟩
  · intro pixels hlen
    rw [SiteMapper.generate_fingerprint_eq]
    have hmem : ∀ x ∈ (pixels.map (fun (p : ℕ) =>
        if ((pixels.sum : ℚ) / (pixels.length : ℚ)) < (p : ℚ) then 1 else 0)).reverse,
        x < 2 := by
      intro x hx
      rw [List.mem_reverse, List.mem_map] at hx
      obtain ⟨p, _, rfl⟩ := hx
      split_ifs <;> omega
    have hlt := Nat.ofDigits_lt_base_pow_length (b := 2) (by norm_num) hmem
    have hexp : (pixels.map (fun (p : ℕ) =>
        if ((pixels.sum : ℚ) / (pixels.length : ℚ)) < (p : ℚ) then 1 else 0)).reverse.length
        = 256 := by
      rw [List.length_reverse, List.length_map]
      exact hlen
    rw [hexp] at hlt
    have h2 : (2 : ℕ) ^ 256 = 16 ^ 64 := by
      rw [show (16 : ℕ) = 2 ^ 4 by norm_num, ← pow_mul]
    have hlt' := lt_of_lt_of_le hlt (le_of_eq h2)
    exact ⟨SiteMapper.format064x_length _ hlt', SiteMapper.format064x_hex _⟩
  · intro digest hlen hbytes
    have htake : (SiteMapper.hexdigestChars digest).take 64 =
        SiteMapper.hexdigestChars digest := by
      apply List.take_of_length_le
      rw [SiteMapper.hexdigestChars_length, hlen]
    constructor
    · show ((SiteMapper.hexdigestChars digest).take 64).length = 64
      rw [htake, SiteMapper.hexdigestChars_length, hlen]
    · show ((SiteMapper.hexdigestChars digest).take 64).all SiteMapper.isHexChar = true
      rw [htake]
      exact SiteMapper.hexdigestChars_hex digest hbytes
  · intro fp1 fp2 threshold h
    simp [SiteMapper.fingerprints_similar, h]

/-- C10 witness: the specification evaluated on a uniform 16×16 grid, a
32-byte zero digest, and two fingerprints of unequal length. -/
theorem generate_fingerprint_spec_witness :
    (SiteMapper.generate_fingerprint (List.replicate 256 0)).length = 64 ∧
    (SiteMapper.generate_fingerprint_fallback (List.replicate 32 0)).length = 64 ∧
    SiteMapper.fingerprints_similar "a" "bb" 10 = false := by
  refine ⟨?_, ?_, ?_⟩
  · exact (generate_fingerprint_spec.1 (List.replicate 256 0)
      (List.length_replicate 256 0)).1
  · exact (generate_fingerprint_spec.2.1 (List.replicate 32 0)
      (List.length_replicate 32 0)
      (fun b hb => by rw [List.eq_of_mem_replicate hb]; norm_num)).1
  · exact generate_fingerprint_spec.2.2 "a" "bb" 10 (by decide)

/-- C2 counterexample: in a fresh `NAVIGATING` session with
`stuck_count = 0 < max_stuck_retries = 3`, a `"stuck"` decision makes
`execute_step` return `true` (the loop continues) but sets the session state
to `STUCK`, not `NAVIGATING` — the session does not remain in the Navigating
state during the bounded-recovery retry. -/
theorem stuck_retry_not_navigating :
    (NavigationEngine.execute_step Examples.stuckEnv Examples.navStart).1 = true ∧
    (NavigationEngine.execute_step Examples.stuckEnv Examples.navStart).2.state =
      NavigationEngine.NavigationState.stuck ∧
    (NavigationEngine.execute_step Examples.stuckEnv Examples.navStart).2.state ≠
      NavigationEngine.NavigationState.navigating ∧
    (NavigationEngine.execute_step Examples.stuckEnv Examples.navStart).2.stuck_count = 1 ∧
    Examples.navStart.max_stuck_retries = 3 := by
  refine ⟨?_, ?_, ?_, ?_, rfl⟩ <;> decide

/-- C2 (amended): a `"stuck"` decision increments `stuck_count`; once
`stuck_count` reaches `max_stuck_retries` the session terminates
(`execute_step` returns `false`) in the `STUCK` state with a completion
reason; below the budget the engine performs its bounded in-page recovery,
the session moves to the non-terminal `STUCK` state (recorded for
observability; it returns to `NAVIGATING` on the next successful action) and
`execute_step` returns `true` so the step loop continues, with the error
count untouched. -/
theorem execute_step_stuck_spec (env : NavigationEngine.StepEnv)
    (s : NavigationEngine.NavigationSession) (reasoning : String)
    (hstate : s.state = NavigationEngine.NavigationState.navigating ∨
      s.state = NavigationEngine.NavigationState.stuck)
    (halive : env.pageAlive = true)
    (hev : env.event = NavigationEngine.StepEvent.decided
      (NavigationEngine.StepDecision.stuck reasoning)) :
    (NavigationEngine.execute_step env s).2.stuck_count = s.stuck_count + 1 ∧
    (s.max_stuck_retries ≤ s.stuck_count + 1 →
      (NavigationEngine.execute_step env s).1 = false ∧
      (NavigationEngine.execute_step env s).2.state =
        NavigationEngine.NavigationState.stuck ∧
      (NavigationEngine.execute_step env s).2.completion_reason =
        some ("Stuck: " ++ reasoning)) ∧
    (s.stuck_count + 1 < s.max_stuck_retries →
      (NavigationEngine.execute_step env s).1 = true ∧
      (NavigationEngine.execute_step env s).2.state =
        NavigationEngine.NavigationState.stuck ∧
      (NavigationEngine.execute_step env s).2.error_count = s.error_count) := by
  have hnotdead : ¬(env.pageAlive = false ∧ env.recoverOk = false) := by
    rw [halive]; simp
  have hguard : ¬(s.state ≠ NavigationEngine.NavigationState.navigating ∧
      s.state ≠ NavigationEngine.NavigationState.stuck) := by
    rcases hstate with h | h <;> rw [h] <;> simp
  simp only [NavigationEngine.execute_step, hev, if_neg hguard, if_neg hnotdead]
  by_cases hmax : s.max_stuck_retries ≤ s.stuck_count + 1
  · rw [if_pos hmax]
    exact ⟨rfl, fun _ => ⟨rfl, rfl, rfl⟩, fun hlt => absurd hmax (by omega)⟩
  · rw [if_neg hmax]
    exact ⟨rfl, fun hle => absurd hle hmax, fun _ => ⟨rfl, rfl, rfl⟩⟩

/-- C2 witness: the amended stuck semantics evaluated on the fresh session
(below budget: continues in `STUCK` with the counter at 1). -/
theorem execute_step_stuck_spec_witness :
    (NavigationEngine.execute_step Examples.stuckEnv Examples.navStart).2.stuck_count = 1 ∧
    (NavigationEngine.execute_step Examples.stuckEnv Examples.navStart).1 = true ∧
    (NavigationEngine.execute_step Examples.stuckEnv Examples.navStart).2.state =
      NavigationEngine.NavigationState.stuck := by
  have h := execute_step_stuck_spec Examples.stuckEnv Examples.navStart "no progress"
    (Or.inl rfl) rfl rfl
  have hlt : Examples.navStart.stuck_count + 1 < Examples.navStart.max_stuck_retries := by
    decide
  exact ⟨h.1, (h.2.2 hlt).1, (h.2.2 hlt).2.1⟩

/-- C8 counterexample: from the same fresh `NAVIGATING` session with the
error budget not yet reached, an unhandled exception and an executor-reported
failure are *not* treated identically: both increment `error_count` and
continue, but the exception path leaves the session in `NAVIGATING` and
records no issue, while the executor-failure path moves it to `STUCK` and
records an issue. -/
theorem exception_path_differs_from_failure_path :
    (NavigationEngine.execute_step Examples.raisedEnv Examples.navStart).2.error_count = 1 ∧
    (NavigationEngine.execute_step Examples.failEnv Examples.navStart).2.error_count = 1 ∧
    (NavigationEngine.execute_step Examples.raisedEnv Examples.navStart).1 = true ∧
    (NavigationEngine.execute_step Examples.failEnv Examples.navStart).1 = true ∧
    (NavigationEngine.execute_step Examples.raisedEnv Examples.navStart).2.state =
      NavigationEngine.NavigationState.navigating ∧
    (NavigationEngine.execute_step Examples.failEnv Examples.navStart).2.state =
      NavigationEngine.NavigationState.stuck ∧
    (NavigationEngine.execute_step Examples.raisedEnv Examples.navStart).2.issues_detected = 0 ∧
    (NavigationEngine.execute_step Examples.failEnv Examples.navStart).2.issues_detected = 1 := by
  refine ⟨?_, ?_, ?_, ?_, ?_, ?_, ?_, ?_⟩ <;> decide

/-- C8 (amended): every unhandled exception raised inside a step is caught at
the iteration boundary and counted against `error_count`; while the new count
stays below `max_errors`, `execute_step` returns `true` and the session keeps
its state (no `STUCK` transition and no recorded issue, unlike an
executor-reported failure); once the count reaches `max_errors` the session
ends in terminal `ERROR` with `execute_step` returning `false` — the same
termination condition as an executor-reported failure. -/
theorem execute_step_exception_spec (env : NavigationEngine.StepEnv)
    (s : NavigationEngine.NavigationSession)
    (hstate : s.state = NavigationEngine.NavigationState.navigating ∨
      s.state = NavigationEngine.NavigationState.stuck)
    (halive : env.pageAlive = true)
    (hev : env.event = NavigationEngine.StepEvent.raised) :
    (NavigationEngine.execute_step env s).2.error_count = s.error_count + 1 ∧
    (s.error_count + 1 < s.max_errors →
      (NavigationEngine.execute_step env s).1 = true ∧
      (NavigationEngine.execute_step env s).2.state = s.state ∧
      (NavigationEngine.execute_step env s).2.issues_detected = s.issues_detected) ∧
    (s.max_errors ≤ s.error_count + 1 →
      (NavigationEngine.execute_step env s).1 = false ∧
      (NavigationEngine.execute_step env s).2.state =
        NavigationEngine.NavigationState.error) := by
  have hnotdead : ¬(env.pageAlive = false ∧ env.recoverOk = false) := by
    rw [halive]; simp
  have hguard : ¬(s.state ≠ NavigationEngine.NavigationState.navigating ∧
      s.state ≠ NavigationEngine.NavigationState.stuck) := by
    rcases hstate with h | h <;> rw [h] <;> simp
  simp only [NavigationEngine.execute_step, hev, if_neg hguard, if_neg hnotdead]
  by_cases hmax : s.max_errors ≤ s.error_count + 1
  · rw [if_pos hmax]
    exact ⟨rfl, fun hlt => absurd hmax (by omega), fun _ => ⟨rfl, rfl⟩⟩
  · rw [if_neg hmax]
    exact ⟨rfl, fun _ => ⟨rfl, rfl, rfl⟩, fun hle => absurd hle hmax⟩

/-- C8 witness: the amended exception semantics evaluated on the fresh
session (below budget: counted, state kept, loop continues). -/
theorem execute_step_exception_spec_witness :
    (NavigationEngine.execute_step Examples.raisedEnv Examples.navStart).2.error_count = 1 ∧
    (NavigationEngine.execute_step Examples.raisedEnv Examples.navStart).1 = true ∧
    (NavigationEngine.execute_step Examples.raisedEnv Examples.navStart).2.state =
      Examples.navStart.state := by
  have h := execute_step_exception_spec Examples.raisedEnv Examples.navStart
    (Or.inl rfl) rfl rfl
  have hlt : Examples.navStart.error_count + 1 < Examples.navStart.max_errors := by decide
  exact ⟨h.1, (h.2.1 hlt).1, (h.2.1 hlt).2.1⟩

namespace SiteMapper

/-- How `setIssues` interacts with lookup: the marked key reads back with
`has_issues := true`, every other key is untouched. -/
theorem lookupScreen_setIssues (screens : List (String × Screen)) (fp fp' : String) :
    lookupScreen (setIssues screens fp) fp' =
      if fp = fp' then
        (lookupScreen screens fp').map (fun s => { s with has_issues := true })
      else lookupScreen screens fp' := by
  induction screens with
  | nil =>
    simp only [setIssues, lookupScreen, Option.map_none']
    split_ifs <;> rfl
  | cons p rest ih =>
    obtain ⟨k, s⟩ := p
    simp only [setIssues]
    by_cases hk : k = fp
    · rw [if_pos hk]
      simp only [lookupScreen]
      by_cases hk' : k = fp'
      · rw [if_pos hk', if_pos hk', if_pos (hk ▸ hk')]
        rfl
      · rw [if_neg hk', if_neg hk', if_neg (hk ▸ hk')]
    · rw [if_neg hk]
      simp only [lookupScreen]
      by_cases hk' : k = fp'
      · rw [if_pos hk', if_pos hk']
        rw [if_neg (fun h => hk (hk'.trans h.symm))]
      · rw [if_neg hk', if_neg hk']
        exact ih

/-- `has_issues` does not feed into untested-element computation. -/
theorem get_untested_elements_set_issues (s : Screen) :
    Screen.get_untested_elements { s with has_issues := true } =
      s.get_untested_elements := rfl

/-- Marking a screen as having issues changes no untested-element set. -/
theorem untestedUnder_setIssues (screens : List (String × Screen)) (fp fp' : String) :
    untestedUnder (setIssues screens fp) fp' = untestedUnder screens fp' := by
  simp only [untestedUnder, lookupScreen_setIssues]
  by_cases h : fp = fp'
  · rw [if_pos h]
    cases lookupScreen screens fp' with
    | none => rfl
    | some s => exact get_untested_elements_set_issues s
  · rw [if_neg h]

end SiteMapper

/-- C1 counterexample: on the concrete engine state over the single-screen
map (no transitions yet), a click on element `"A"` of screen `"s1"` that
raises an execution error leaves the SiteMap's transition list empty — no
transition with result `"error"` (nor any other) is recorded in the SiteMap;
the error is recorded only as an interaction-log entry, while `has_issues`
is set and the error counter increments. -/
theorem error_click_records_no_sitemap_transition :
    (BruteForceEngine.test_element Examples.engineStart 5 "s1" Examples.elemA
      (BruteForceEngine.ClickOutcome.raised "boom")).site_map.transitions = [] ∧
    (BruteForceEngine.test_element Examples.engineStart 5 "s1" Examples.elemA
      (BruteForceEngine.ClickOutcome.raised "boom")).interaction_logs =
      [{ screen_fingerprint := "s1", element_label := "A", element_type := "button",
         action := "click", result := "error" }] ∧
    SiteMapper.lookupScreen
      (BruteForceEngine.test_element Examples.engineStart 5 "s1" Examples.elemA
        (BruteForceEngine.ClickOutcome.raised "boom")).site_map.screens "s1" =
      some { Examples.screenS1 with has_issues := true } ∧
    (BruteForceEngine.test_element Examples.engineStart 5 "s1" Examples.elemA
      (BruteForceEngine.ClickOutcome.raised "boom")).errors_found = 1 := by
  refine ⟨?_, ?_, ?_, ?_⟩ <;> decide

/-- C1 (amended): when the click raises an execution error, `_test_element`
records the failure as an interaction-log entry with result `"error"` — no
transition is added to the SiteMap — increments the error counter, sets the
source screen's `has_issues` flag (when the screen is known), leaves every
screen's untested-element set unchanged, and returns normally (the exception
is caught), so the exploration cycle continues rather than aborting. -/
theorem test_element_error_spec (st : BruteForceEngine.EngineState) (now : Nat)
    (screen_fp : String) (element : ElementDiscovery.InteractiveElement)
    (msg : String) :
    (BruteForceEngine.test_element st now screen_fp element
      (BruteForceEngine.ClickOutcome.raised msg)).site_map.transitions =
      st.site_map.transitions ∧
    (BruteForceEngine.test_element st now screen_fp element
      (BruteForceEngine.ClickOutcome.raised msg)).interaction_logs =
      st.interaction_logs ++
        [{ screen_fingerprint := screen_fp, element_label := element.label,
           element_type := element.element_type, action := "click",
           result := "error" }] ∧
    (BruteForceEngine.test_element st now screen_fp element
      (BruteForceEngine.ClickOutcome.raised msg)).errors_found =
      st.errors_found + 1 ∧
    (∀ s0, SiteMapper.lookupScreen st.site_map.screens screen_fp = some s0 →
      SiteMapper.lookupScreen
        (BruteForceEngine.test_element st now screen_fp element
          (BruteForceEngine.ClickOutcome.raised msg)).site_map.screens screen_fp =
        some { s0 with has_issues := true }) ∧
    (∀ fp, (BruteForceEngine.test_element st now screen_fp element
        (BruteForceEngine.ClickOutcome.raised msg)).site_map.get_untested_elements fp =
      st.site_map.get_untested_elements fp) := by
  refine ⟨rfl, rfl, rfl, ?_, ?_⟩
  · intro s0 hl
    show SiteMapper.lookupScreen
      (SiteMapper.setIssues st.site_map.screens screen_fp) screen_fp = _
    rw [SiteMapper.lookupScreen_setIssues, if_pos rfl, hl]
    rfl
  · intro fp
    show SiteMapper.untestedUnder
      (SiteMapper.setIssues st.site_map.screens screen_fp) fp = _
    rw [SiteMapper.untestedUnder_setIssues]
    rfl

/-- C1 witness: the amended error-path semantics evaluated on the concrete
engine state, with the known-screen hypothesis discharged on `"s1"`. -/
theorem test_element_error_spec_witness :
    (BruteForceEngine.test_element Examples.engineStart 5 "s1" Examples.elemA
      (BruteForceEngine.ClickOutcome.raised "boom")).site_map.transitions =
      Examples.engineStart.site_map.transitions ∧
    SiteMapper.lookupScreen
      (BruteForceEngine.test_element Examples.engineStart 5 "s1" Examples.elemA
        (BruteForceEngine.ClickOutcome.raised "boom")).site_map.screens "s1" =
      some { Examples.screenS1 with has_issues := true } := by
  have h := test_element_error_spec Examples.engineStart 5 "s1" Examples.elemA "boom"
  exact ⟨h.1, h.2.2.2.1 Examples.screenS1 (by decide)⟩
